import Mathlib

/-!
Verification of the JWT bearer-token verification and authorization contract
of the m7011e tutorial repository (Flask backends under src/12-keycloak).

The Python sources delegate signature checking and standard-claim validation
to the PyJWT library; the library's observable behaviour (as called with the
options used by the sources) is embedded below (jwtDecode and its claim
validators, in PyJWT's checking order: signature, then nbf, exp, iss, aud).
The RSA-SHA256 and HMAC-SHA256 primitives are modelled abstractly as
injections of (key, signing input) into Nat; the verifying code treats them
as black boxes, so only the distinction valid/invalid signature matters.
Base64url/JSON compact deserialization is modelled by a parse function
from token strings to a structured RawToken.
-/

/-- One JSON Web Key from the JWKS document: key id plus the public key
material (the RSA n, e pair, modelled as an abstract Nat). -/
structure Jwk where
  kid : String
  key : Nat
  deriving DecidableEq

/-- The JWKS document returned by the Keycloak certs endpoint. -/
structure Jwks where
  keys : List Jwk
  deriving DecidableEq

/-- A decoded JOSE header: the alg name and the optional kid field. -/
structure TokenHeader where
  alg : String
  kid : Option String
  deriving DecidableEq

/-- The claims of a token payload used by the sources.  realm_roles models
the realm_access.roles list (absent structures collapse to [], exactly as
the .get chains in the Python do); resource_access maps a client id to its
roles list; aud of [] models an absent or empty aud claim. -/
structure TokenPayload where
  sub : Option String
  exp : Option Int
  nbf : Option Int
  iat : Option Int
  iss : Option String
  aud : List String
  preferred_username : Option String
  realm_roles : List String
  resource_access : List (String × List String)
  deriving DecidableEq

/-- Result of PyJWT compact deserialization of a token string: either a
DecodeError (with the message PyJWT raises, e.g. "Not enough segments"),
or the structured header, payload and signature. -/
inductive RawToken where
  | malformed (msg : String)
  | wellFormed (h : TokenHeader) (p : TokenPayload) (sig : Nat)
  deriving DecidableEq

/-- Abstract code of a string (stands in for its UTF-8 bytes). -/
def strCode (s : String) : Nat :=
  s.data.foldl (fun a c => a * 257 + c.toNat + 1) 7

def optStrCode : Option String → Nat
  | none => 0
  | some s => strCode s + 1

def intCode (i : Int) : Nat :=
  2 * i.natAbs + (if i < 0 then 1 else 0)

def optIntCode : Option Int → Nat
  | none => 0
  | some i => intCode i + 1

def mixCodes (l : List Nat) : Nat :=
  l.foldl (fun a n => a * 1000003 + n + 1) 11

/-- Abstract code of the serialized payload segment. -/
def payloadCode (p : TokenPayload) : Nat :=
  mixCodes [optStrCode p.sub, optIntCode p.exp, optIntCode p.nbf,
    optIntCode p.iat, optStrCode p.iss, mixCodes (p.aud.map strCode),
    optStrCode p.preferred_username, mixCodes (p.realm_roles.map strCode),
    mixCodes (p.resource_access.map (fun kv =>
      mixCodes (strCode kv.1 :: kv.2.map strCode)))]

/-- Abstract code of the serialized header segment. -/
def headerCode (h : TokenHeader) : Nat :=
  mixCodes [strCode h.alg, optStrCode h.kid]

/-- The JWS signing input (header segment dot payload segment). -/
def signingInput (h : TokenHeader) (p : TokenPayload) : Nat :=
  headerCode h * 1000003 + payloadCode p

/-- Abstract RSA-SHA256 signature of a signing input under a key. -/
def rs256Sign (key : Nat) (msg : Nat) : Nat :=
  (2 * key + 1) * (msg + 1)

/-- RS256 signature verification: the signature matches the one the key
holder would produce over this header and payload. -/
def rs256Verify (key : Nat) (h : TokenHeader) (p : TokenPayload) (sig : Nat) : Bool :=
  sig == rs256Sign key (signingInput h p)

/-- Abstract HMAC-SHA256 tag (deliberately different from rs256Sign). -/
def hs256Sign (secret : Nat) (msg : Nat) : Nat :=
  2 * secret * (msg + 1) + 2

/-- HS256 verification, as the library would perform it if selected. -/
def hs256Verify (secret : Nat) (h : TokenHeader) (p : TokenPayload) (sig : Nat) : Bool :=
  sig == hs256Sign secret (signingInput h p)

/-- PyJWT's algorithm registry, restricted to the two families relevant
here; looking up any other name (including "none") yields nothing. -/
def algImpl (name : String) : Option (Nat → TokenHeader → TokenPayload → Nat → Bool) :=
  if name = "RS256" then some rs256Verify
  else if name = "HS256" then some hs256Verify
  else none

/-- The distinct PyJWT exception classes observable through the sources.
All of them except decodeError-wrapped input are subclasses of
InvalidTokenError; ExpiredSignatureError is the one the app code catches
separately. -/
inductive JwtError where
  | decodeError (msg : String)
  | invalidAlgorithm
  | invalidSignature
  | missingRequiredClaim (claim : String)
  | immatureSignature
  | expiredSignature
  | invalidIssuer
  | invalidAudience
  deriving DecidableEq

/-- str(e) of the corresponding PyJWT exception. -/
def jwtErrorMsg : JwtError → String
  | .decodeError m => m
  | .invalidAlgorithm => "The specified alg value is not allowed"
  | .invalidSignature => "Signature verification failed"
  | .missingRequiredClaim c => "Token is missing the \"" ++ c ++ "\" claim"
  | .immatureSignature => "The token is not yet valid (nbf)"
  | .expiredSignature => "Signature has expired"
  | .invalidIssuer => "Invalid issuer"
  | .invalidAudience => "Audience doesn\x27t match"

/-- PyJWT _validate_nbf: fails when the nbf claim is in the future. -/
def checkNbf (p : TokenPayload) (now : Int) : Except JwtError Unit :=
  match p.nbf with
  | some n => if now < n then .error .immatureSignature else .ok ()
  | none => .ok ()

/-- PyJWT _validate_exp: fails when exp is not strictly in the future. -/
def checkExp (p : TokenPayload) (now : Int) : Except JwtError Unit :=
  match p.exp with
  | some e => if e ≤ now then .error .expiredSignature else .ok ()
  | none => .ok ()

/-- PyJWT _validate_iss: a no-op when the caller supplies no issuer. -/
def checkIss (p : TokenPayload) (issuer : Option String) : Except JwtError Unit :=
  match issuer with
  | none => .ok ()
  | some i =>
    match p.iss with
    | none => .error (.missingRequiredClaim "iss")
    | some pi => if pi = i then .ok () else .error .invalidIssuer

/-- PyJWT _validate_aud with a single expected audience string. -/
def checkAud (p : TokenPayload) (audience : Option String) : Except JwtError Unit :=
  match audience with
  | none => if p.aud = [] then .ok () else .error .invalidAudience
  | some a =>
    if p.aud = [] then .error (.missingRequiredClaim "aud")
    else if p.aud.contains a then .ok () else .error .invalidAudience

/-- PyJWT _validate_claims on the options the sources enable, in PyJWT's
checking order (iat never fails on integer claims and is omitted):
nbf, exp, iss, aud; the first failure short-circuits. -/
def validateClaims (p : TokenPayload) (audience issuer : Option String)
    (now : Int) : Except JwtError TokenPayload :=
  match checkNbf p now with
  | .error e => .error e
  | .ok _ =>
    match checkExp p now with
    | .error e => .error e
    | .ok _ =>
      match checkIss p issuer with
      | .error e => .error e
      | .ok _ =>
        match checkAud p audience with
        | .error e => .error e
        | .ok _ => .ok p

/-- PyJWT jwt.decode with verify_signature on: deserialization, algorithm
allow-list check, signature verification with the algorithm selected from
the registry under the allow-list constraint, then claim validation. -/
def jwtDecode (tok : RawToken) (key : Nat) (algorithms : List String)
    (audience issuer : Option String) (now : Int) : Except JwtError TokenPayload :=
  match tok with
  | .malformed m => .error (.decodeError m)
  | .wellFormed h p sig =>
    if ¬ algorithms.contains h.alg then .error .invalidAlgorithm
    else
      match algImpl h.alg with
      | none => .error .invalidAlgorithm
      | some check =>
        if ¬ check key h p sig then .error .invalidSignature
        else validateClaims p audience issuer now

/-- The process-wide public-key cache (the public_keys global). -/
structure KeyCacheState where
  public_keys : Option Jwks
  deriving DecidableEq

/-- get_public_keys: fetch from the certs endpoint only when the cache is
empty; the provider argument is what the endpoint would return now. -/
def get_public_keys (provider : Jwks) (st : KeyCacheState) : Jwks × KeyCacheState :=
  match st.public_keys with
  | some ks => (ks, st)
  | none => (provider, { public_keys := some provider })

/-- Outcome of an authentication decorator: request.user populated, or a
jsonify({error...}), status denial, or an uncaught Python exception
(Flask responds 500). -/
inductive AuthResult where
  | ok (user : TokenPayload)
  | denied (error : String) (status : Nat)
  | serverError
  deriving DecidableEq

/-- A stored todo item (created_at carries the datetime.now() isoformat
string, supplied by the caller since wall-clock time is external). -/
structure Todo where
  id : Nat
  text : String
  completed : Bool
  user_id : Option String
  username : String
  created_at : String
  deriving DecidableEq

/-- The in-memory application state of the todo backends. -/
structure AppState where
  todos : List Todo
  todo_id_counter : Nat
  deriving DecidableEq

/-- The observable HTTP response of an endpoint: a jsonify error body with
its status, a 201 with the created todo, a 200 with a todo, or 204. -/
inductive ApiResponse where
  | err (e : String) (status : Nat)
  | created (t : Todo)
  | todoJson (t : Todo)
  | noContent
  deriving DecidableEq

/-- Python str.lower on the scheme word (ASCII), modelled structurally so
concrete instances evaluate in the kernel. -/
def lowerStr (s : String) : String :=
  String.mk (s.data.map Char.toLower)

/-- Python str.split(" ") (single-space separator, empties kept), modelled
structurally so concrete instances evaluate in the kernel. -/
def splitCharsOnSpace : List Char → List (List Char)
  | [] => [[]]
  | c :: cs =>
    match splitCharsOnSpace cs with
    | [] => [[c]]
    | w :: ws => if c = ' ' then [] :: w :: ws else (c :: w) :: ws

def splitOnSpace (s : String) : List String :=
  (splitCharsOnSpace s.data).map (fun w => String.mk w)

namespace Part1

/- example-part-1-todo-basic/backend/app.py: the deliberately insecure
variant: jwt.decode with verify_signature False and every claim check
disabled just deserializes the payload. -/

/-- jwt.decode(token, options all False): no signature or claim check;
only compact deserialization can fail. -/
def jwtDecodeUnverified (tok : RawToken) : Except JwtError TokenPayload :=
  match tok with
  | .malformed m => .error (.decodeError m)
  | .wellFormed _ p _ => .ok p

/-- require_auth of the basic example: header and scheme checks, then the
unverified decode populates request.user. -/
def require_auth (parse : String → RawToken)
    (auth_header : Option (List String)) : AuthResult :=
  match auth_header with
  | none => .denied "No authorization header" 401
  | some [scheme, tokenStr] =>
    if lowerStr scheme ≠ "bearer" then .denied "Invalid authorization header" 401
    else
      match jwtDecodeUnverified (parse tokenStr) with
      | .ok u => .ok u
      | .error e => .denied ("Invalid token: " ++ jwtErrorMsg e) 401
  | some _ => .denied "Invalid authorization header" 401

end Part1

namespace Part2

/- example-part-2-todo-secure/backend/app.py: signature-verifying variant.
jwt.decode is called with algorithms=[RS256], audience=account and no
issuer argument (so verify_iss is a no-op in PyJWT), options all True. -/

/-- The key-selection loop of require_auth.  It has no break statement, so
the LAST key whose kid matches wins. -/
def findKey (keys : Jwks) (kid : String) : Option Jwk :=
  (keys.keys.filter (fun k => k.kid == kid)).getLast?

/-- require_auth: header checks, key fetch, kid lookup (a missing kid in
the token header raises an uncaught KeyError, a 500), then jwt.decode and
the two except clauses. -/
def require_auth (parse : String → RawToken) (provider : Jwks) (now : Int)
    (auth_header : Option (List String)) (st : KeyCacheState) :
    AuthResult × KeyCacheState :=
  match auth_header with
  | none => (.denied "No authorization header" 401, st)
  | some [scheme, tokenStr] =>
    if lowerStr scheme ≠ "bearer" then (.denied "Invalid authorization header" 401, st)
    else
      let keys := (get_public_keys provider st).1
      let st' := (get_public_keys provider st).2
      match parse tokenStr with
      | .malformed m => (.denied ("Invalid token: " ++ m) 401, st')
      | .wellFormed h p sig =>
        match h.kid with
        | none => (.serverError, st')
        | some kid =>
          match findKey keys kid with
          | none => (.denied "Public key not found" 401, st')
          | some k =>
            match jwtDecode (.wellFormed h p sig) k.key ["RS256"] (some "account") none now with
            | .ok u => (.ok u, st')
            | .error .expiredSignature => (.denied "Token has expired" 401, st')
            | .error e => (.denied ("Invalid token: " ++ jwtErrorMsg e) 401, st')
  | some _ => (.denied "Invalid authorization header" 401, st)

/-- create_todo handler body (runs only after require_auth succeeds).
body models request.get_json(): outer none is a missing or false-y JSON
document, inner option is the text field. -/
def create_todo (user : TokenPayload) (body : Option (Option String))
    (created_at : String) (st : AppState) : ApiResponse × AppState :=
  match body with
  | none => (.err "Missing required field: text" 400, st)
  | some none => (.err "Missing required field: text" 400, st)
  | some (some raw) =>
    let text := raw.trim
    if text = "" then (.err "Todo text cannot be empty" 400, st)
    else
      let new_todo : Todo :=
        { id := st.todo_id_counter, text := text, completed := false,
          user_id := user.sub, username := user.preferred_username.getD "unknown",
          created_at := created_at }
      (.created new_todo,
        { todos := st.todos ++ [new_todo], todo_id_counter := st.todo_id_counter + 1 })

/-- delete_todo handler body: 404 when absent, 403 unless owner, else
remove every todo with that id. -/
def delete_todo (user : TokenPayload) (todo_id : Nat) (st : AppState) :
    ApiResponse × AppState :=
  match st.todos.find? (fun t => t.id == todo_id) with
  | none => (.err "Todo not found" 404, st)
  | some todo =>
    if todo.user_id != user.sub then
      (.err "Forbidden: You can only delete your own todos" 403, st)
    else
      (.noContent, { st with todos := st.todos.filter (fun t => t.id != todo_id) })

/-- The decorated POST /api/todos endpoint: require_auth gates the handler. -/
def handle_create_todo (parse : String → RawToken) (provider : Jwks) (now : Int)
    (auth_header : Option (List String)) (body : Option (Option String))
    (created_at : String) (kst : KeyCacheState) (st : AppState) :
    ApiResponse × KeyCacheState × AppState :=
  match require_auth parse provider now auth_header kst with
  | (.ok user, kst') =>
    let r := create_todo user body created_at st
    (r.1, kst', r.2)
  | (.denied e c, kst') => (.err e c, kst', st)
  | (.serverError, kst') => (.err "Internal Server Error" 500, kst', st)

/-- The decorated DELETE /api/todos/id endpoint. -/
def handle_delete_todo (parse : String → RawToken) (provider : Jwks) (now : Int)
    (auth_header : Option (List String)) (todo_id : Nat)
    (kst : KeyCacheState) (st : AppState) :
    ApiResponse × KeyCacheState × AppState :=
  match require_auth parse provider now auth_header kst with
  | (.ok user, kst') =>
    let r := delete_todo user todo_id st
    (r.1, kst', r.2)
  | (.denied e c, kst') => (.err e c, kst', st)
  | (.serverError, kst') => (.err "Internal Server Error" 500, kst', st)

end Part2

namespace Part3

/- example-part-3-todo-rbac/backend/app.py: same require_auth as Part2;
adds is_admin and owner-or-admin checks on toggle and delete. -/

/-- is_admin: the admin realm role is present on request.user. -/
def is_admin (u : TokenPayload) : Bool :=
  u.realm_roles.contains "admin"

/-- In-place mutation of the first todo found by next(...): only the first
todo with the id is toggled. -/
def toggleFirst (todo_id : Nat) : List Todo → List Todo
  | [] => []
  | t :: ts =>
    if t.id = todo_id then { t with completed := !t.completed } :: ts
    else t :: toggleFirst todo_id ts

/-- toggle_todo handler body: 404 when absent; 403 when the caller is
neither admin nor owner; otherwise flip completed and return the todo. -/
def toggle_todo (user : TokenPayload) (todo_id : Nat) (todos : List Todo) :
    ApiResponse × List Todo :=
  match todos.find? (fun t => t.id == todo_id) with
  | none => (.err "Todo not found" 404, todos)
  | some todo =>
    if !is_admin user && todo.user_id != user.sub then
      (.err "Forbidden: You can only toggle your own todos" 403, todos)
    else
      (.todoJson { todo with completed := !todo.completed }, toggleFirst todo_id todos)

end Part3

namespace ExampleApp

/- example-app/keycloak-flask.py: verify_token passes issuer and audience
to jwt.decode; require_auth does no scheme or segment-count validation
before calling it; require_role wraps require_auth. -/

def CLIENT_ID : String := "demo-api"

def KEYCLOAK_ISSUER : String :=
  "https://keycloak.ltu-m7011e-YOUR-NAME.se/realms/m7011e"

/-- verify_token: key fetch, kid match with break (first match; a token
without kid never matches), then jwt.decode with issuer and audience.
Raised messages are the strings require_auth will report. -/
def verify_token (tok : RawToken) (provider : Jwks) (now : Int)
    (st : KeyCacheState) : Except String TokenPayload × KeyCacheState :=
  let keys := (get_public_keys provider st).1
  let st' := (get_public_keys provider st).2
  match tok with
  | .malformed m => (.error ("Invalid token: " ++ m), st')
  | .wellFormed h p sig =>
    match keys.keys.find? (fun k => some k.kid == h.kid) with
    | none => (.error "Public key not found", st')
    | some k =>
      match jwtDecode (.wellFormed h p sig) k.key ["RS256"] (some "account")
          (some KEYCLOAK_ISSUER) now with
      | .ok u => (.ok u, st')
      | .error .expiredSignature => (.error "Token has expired", st')
      | .error e => (.error ("Invalid token: " ++ jwtErrorMsg e), st')

/-- require_auth: only a missing header is rejected up front.  The token is
taken as split(" ")[1] inside the try block, so a one-word header raises
IndexError (reported as its str) and any two-word header, whatever its
scheme, reaches verify_token. -/
def require_auth (parse : String → RawToken) (provider : Jwks) (now : Int)
    (auth_header : Option String) (st : KeyCacheState) :
    AuthResult × KeyCacheState :=
  match auth_header with
  | none => (.denied "No authorization header" 401, st)
  | some hdr =>
    match (splitOnSpace hdr).get? 1 with
    | none => (.denied "list index out of range" 401, st)
    | some tokenStr =>
      match verify_token (parse tokenStr) provider now st with
      | (.ok u, st') => (.ok u, st')
      | (.error e, st') => (.denied e 401, st')

/-- The role test of require_role: present among realm roles or among the
client roles scoped to CLIENT_ID. -/
def roleAllowed (u : TokenPayload) (role : String) : Bool :=
  let realm_roles := u.realm_roles
  let client_roles := (u.resource_access.lookup CLIENT_ID).getD []
  realm_roles.contains role || client_roles.contains role

/-- require_role: require_auth first, then the role check; denial is a 403
naming the role. -/
def require_role (role : String) (parse : String → RawToken) (provider : Jwks)
    (now : Int) (auth_header : Option String) (st : KeyCacheState) :
    AuthResult × KeyCacheState :=
  match require_auth parse provider now auth_header st with
  | (.ok u, st') =>
    if roleAllowed u role then (.ok u, st')
    else (.denied ("Role " ++ role ++ " required") 403, st')
  | r => r

end ExampleApp

namespace TodoApp

/- todo-app-example/backend/app.py: verify_token checks the kid is present,
matches keys with break (first match), passes issuer and audience, and
wraps plain exceptions in a Token verification failed prefix. -/

def KEYCLOAK_ISSUER : String :=
  "https://keycloak.ltu-m7011e-YOUR-NAME.se/realms/m7011e"

/-- Key lookup with break: first matching kid wins. -/
def findKey (keys : Jwks) (kid : String) : Option Jwk :=
  keys.keys.find? (fun k => k.kid == kid)

/-- verify_token: the missing-kid and missing-key exceptions are plain
Exceptions, re-wrapped by the catch-all except clause; PyJWT errors map
through the two dedicated except clauses. -/
def verify_token (tok : RawToken) (provider : Jwks) (now : Int)
    (st : KeyCacheState) : Except String TokenPayload × KeyCacheState :=
  let keys := (get_public_keys provider st).1
  let st' := (get_public_keys provider st).2
  match tok with
  | .malformed m => (.error ("Invalid token: " ++ m), st')
  | .wellFormed h p sig =>
    match h.kid with
    | none => (.error "Token verification failed: Token missing key ID (kid)", st')
    | some kid =>
      match findKey keys kid with
      | none =>
        (.error ("Token verification failed: Public key not found for kid: " ++ kid), st')
      | some k =>
        match jwtDecode (.wellFormed h p sig) k.key ["RS256"] (some "account")
            (some KEYCLOAK_ISSUER) now with
        | .ok u => (.ok u, st')
        | .error .expiredSignature => (.error "Token has expired", st')
        | .error e => (.error ("Invalid token: " ++ jwtErrorMsg e), st')

/-- require_auth: header, segment count and scheme checks before
verify_token is invoked. -/
def require_auth (parse : String → RawToken) (provider : Jwks) (now : Int)
    (auth_header : Option (List String)) (st : KeyCacheState) :
    AuthResult × KeyCacheState :=
  match auth_header with
  | none => (.denied "No authorization header provided" 401, st)
  | some [scheme, tokenStr] =>
    if lowerStr scheme ≠ "bearer" then
      (.denied "Invalid authorization header format. Use: Bearer <token>" 401, st)
    else
      match verify_token (parse tokenStr) provider now st with
      | (.ok u, st') => (.ok u, st')
      | (.error e, st') => (.denied e 401, st')
  | some _ => (.denied "Invalid authorization header format. Use: Bearer <token>" 401, st)

end TodoApp

namespace Fix

/- Concrete fixtures used by witnesses and counterexamples. -/

def k1 : Jwk := { kid := "k1", key := 5 }

def k2 : Jwk := { kid := "k2", key := 9 }

def hdrK1 : TokenHeader := { alg := "RS256", kid := some "k1" }

def hdrHS : TokenHeader := { alg := "HS256", kid := some "k1" }

/-- A payload that passes every claim check at time 1000. -/
def goodPayload : TokenPayload :=
  { sub := some "alice", exp := some 2000, nbf := some 10, iat := some 5,
    iss := some TodoApp.KEYCLOAK_ISSUER, aud := ["account"],
    preferred_username := some "alice", realm_roles := ["user"],
    resource_access := [] }

/-- Signature of goodPayload under k1. -/
def goodSig : Nat := rs256Sign k1.key (signingInput hdrK1 goodPayload)

/-- Parse function mapping the literal token string to the validly signed
token and everything else to a deserialization failure. -/
def parseGood : String → RawToken := fun s =>
  if s = "tok" then .wellFormed hdrK1 goodPayload goodSig
  else .malformed "Not enough segments"

/-- Parse function for a forged token: same header and payload but a
signature no key in use would produce. -/
def parseForged : String → RawToken := fun s =>
  if s = "tok" then .wellFormed hdrK1 goodPayload 999
  else .malformed "Not enough segments"

/-- Payload whose exp (100) is already past at time 1000 while its nbf
(5000) is still in the future. -/
def expiredImmaturePayload : TokenPayload :=
  { goodPayload with exp := some 100, nbf := some 5000 }

def expiredImmatureSig : Nat :=
  rs256Sign k1.key (signingInput hdrK1 expiredImmaturePayload)

def parseExpiredImmature : String → RawToken := fun s =>
  if s = "tok" then .wellFormed hdrK1 expiredImmaturePayload expiredImmatureSig
  else .malformed "Not enough segments"

/-- Parse function under which every token string is malformed, as PyJWT
deserialization of the string abc123 would be. -/
def parseMal : String → RawToken := fun _ => .malformed "Not enough segments"

/-- Payload whose exp (100) is already past at time 1000, nbf fine. -/
def expiredPayload : TokenPayload :=
  { goodPayload with exp := some 100 }

def expiredSig : Nat := rs256Sign k1.key (signingInput hdrK1 expiredPayload)

def parseExpired : String → RawToken := fun s =>
  if s = "tok" then .wellFormed hdrK1 expiredPayload expiredSig
  else .malformed "Not enough segments"

def todoA : Todo :=
  { id := 1, text := "buy milk", completed := false, user_id := some "alice",
    username := "alice", created_at := "t0" }

def todoB : Todo :=
  { id := 2, text := "write report", completed := true, user_id := some "bob",
    username := "bob", created_at := "t1" }

/-- A claim set for an admin who owns nothing in the store. -/
def adminUser : TokenPayload :=
  { goodPayload with sub := some "carol", realm_roles := ["admin"] }

/-- A claim set for a plain user (alice, no admin role). -/
def aliceUser : TokenPayload := goodPayload

/-- A claim set for a plain user who owns nothing in the store. -/
def malloryUser : TokenPayload :=
  { goodPayload with sub := some "mallory", realm_roles := ["user"] }

end Fix

/-- Inversion of the claim-validation chain: success means every check
passed and the payload is returned unchanged. -/
theorem validateClaims_ok_inv (p : TokenPayload) (aud iss : Option String)
    (now : Int) (u : TokenPayload)
    (hok : validateClaims p aud iss now = .ok u) :
    checkNbf p now = .ok () ∧ checkExp p now = .ok () ∧
    checkIss p iss = .ok () ∧ checkAud p aud = .ok () ∧ u = p := by
  unfold validateClaims at hok
  cases hnbf : checkNbf p now with
  | error e => simp [hnbf] at hok
  | ok a =>
    cases a
    cases hexp : checkExp p now with
    | error e => simp [hnbf, hexp] at hok
    | ok b =>
      cases b
      cases hiss : checkIss p iss with
      | error e => simp [hnbf, hexp, hiss] at hok
      | ok c =>
        cases c
        cases haud : checkAud p aud with
        | error e => simp [hnbf, hexp, hiss, haud] at hok
        | ok d =>
          cases d
          simp [hnbf, hexp, hiss, haud] at hok
          exact ⟨rfl, rfl, rfl, rfl, hok.symm⟩

/-- The claim-validation chain succeeds when every check passes. -/
theorem validateClaims_ok_of (p : TokenPayload) (aud iss : Option String)
    (now : Int)
    (hnbf : checkNbf p now = .ok ()) (hexp : checkExp p now = .ok ())
    (hiss : checkIss p iss = .ok ()) (haud : checkAud p aud = .ok ()) :
    validateClaims p aud iss now = .ok p := by
  unfold validateClaims
  rw [hnbf, hexp, hiss, haud]

/-- Under the allow-list [RS256], jwt.decode on a well-formed token reduces
to the RS256 signature check followed by claim validation whenever the
header declares RS256. -/
theorem jwtDecode_rs256_reduce (h : TokenHeader) (p : TokenPayload)
    (sig key : Nat) (aud iss : Option String) (now : Int)
    (halg : h.alg = "RS256") :
    jwtDecode (.wellFormed h p sig) key ["RS256"] aud iss now =
      (if rs256Verify key h p sig then validateClaims p aud iss now
       else .error .invalidSignature) := by
  simp only [jwtDecode]
  rw [halg]
  simp [algImpl]
  cases hs : rs256Verify key h p sig <;> simp [hs]

/-- Under the allow-list [RS256], a header declaring any other algorithm is
rejected with InvalidAlgorithmError before any signature check. -/
theorem jwtDecode_rejects_other_alg (h : TokenHeader) (p : TokenPayload)
    (sig key : Nat) (aud iss : Option String) (now : Int)
    (halg : h.alg ≠ "RS256") :
    jwtDecode (.wellFormed h p sig) key ["RS256"] aud iss now =
      .error .invalidAlgorithm := by
  simp only [jwtDecode]
  rw [if_pos]
  simp [List.contains, halg]

/-- Inversion: a successful jwt.decode under the allow-list [RS256] means
the header declared RS256, the RS256 check accepted the signature, every
claim validator passed, and the returned claim set is the payload itself. -/
theorem jwtDecode_ok_inv (h : TokenHeader) (p : TokenPayload) (sig key : Nat)
    (aud iss : Option String) (now : Int) (u : TokenPayload)
    (hok : jwtDecode (.wellFormed h p sig) key ["RS256"] aud iss now = .ok u) :
    h.alg = "RS256" ∧ rs256Verify key h p sig = true ∧
    checkNbf p now = .ok () ∧ checkExp p now = .ok () ∧
    checkIss p iss = .ok () ∧ checkAud p aud = .ok () ∧ u = p := by
  by_cases halg : h.alg = "RS256"
  · rw [jwtDecode_rs256_reduce h p sig key aud iss now halg] at hok
    by_cases hsig : rs256Verify key h p sig = true
    · rw [if_pos hsig] at hok
      have hrest := validateClaims_ok_inv p aud iss now u hok
      exact ⟨halg, hsig, hrest.1, hrest.2.1, hrest.2.2.1, hrest.2.2.2.1,
        hrest.2.2.2.2⟩
    · rw [if_neg (by simpa using hsig)] at hok
      cases hok
  · rw [jwtDecode_rejects_other_alg h p sig key aud iss now halg] at hok
    cases hok

/-- Forward direction: RS256 header, valid signature and passing claim
checks make jwt.decode return the payload. -/
theorem jwtDecode_ok_of_checks (h : TokenHeader) (p : TokenPayload)
    (sig key : Nat) (aud iss : Option String) (now : Int)
    (halg : h.alg = "RS256") (hsig : rs256Verify key h p sig = true)
    (hnbf : checkNbf p now = .ok ()) (hexp : checkExp p now = .ok ())
    (hiss : checkIss p iss = .ok ()) (haud : checkAud p aud = .ok ()) :
    jwtDecode (.wellFormed h p sig) key ["RS256"] aud iss now = .ok p := by
  rw [jwtDecode_rs256_reduce h p sig key aud iss now halg, if_pos hsig]
  exact validateClaims_ok_of p aud iss now hnbf hexp hiss haud

/-- checkNbf succeeds exactly when any nbf claim is not in the future. -/
theorem checkNbf_ok_of (p : TokenPayload) (now : Int)
    (hn : ∀ n, p.nbf = some n → n ≤ now) : checkNbf p now = .ok () := by
  unfold checkNbf
  cases h : p.nbf with
  | none => rfl
  | some n => simp [not_lt.mpr (hn n h)]

theorem checkNbf_ok_inv (p : TokenPayload) (now : Int)
    (hx : checkNbf p now = .ok ()) : ∀ n, p.nbf = some n → n ≤ now := by
  intro n h
  unfold checkNbf at hx
  rw [h] at hx
  by_cases hlt : now < n
  · simp [hlt] at hx
  · exact not_lt.mp hlt

theorem checkNbf_error_of (p : TokenPayload) (now : Int) (n : Int)
    (h : p.nbf = some n) (hlt : now < n) :
    checkNbf p now = .error .immatureSignature := by
  unfold checkNbf
  rw [h]
  simp [hlt]

/-- checkExp succeeds exactly when any exp claim is strictly in the future. -/
theorem checkExp_ok_of (p : TokenPayload) (now : Int)
    (he : ∀ e, p.exp = some e → now < e) : checkExp p now = .ok () := by
  unfold checkExp
  cases h : p.exp with
  | none => rfl
  | some e => simp [not_le.mpr (he e h)]

theorem checkExp_ok_inv (p : TokenPayload) (now : Int)
    (hx : checkExp p now = .ok ()) : ∀ e, p.exp = some e → now < e := by
  intro e h
  unfold checkExp at hx
  rw [h] at hx
  by_cases hle : e ≤ now
  · simp [hle] at hx
  · exact not_le.mp hle

theorem checkExp_error_of (p : TokenPayload) (now : Int) (e : Int)
    (h : p.exp = some e) (hle : e ≤ now) :
    checkExp p now = .error .expiredSignature := by
  unfold checkExp
  rw [h]
  simp [hle]

theorem checkIss_ok_of_eq (p : TokenPayload) (i : String)
    (h : p.iss = some i) : checkIss p (some i) = .ok () := by
  unfold checkIss
  rw [h]
  simp

theorem checkIss_error_of (p : TokenPayload) (i j : String)
    (h : p.iss = some j) (hne : j ≠ i) :
    checkIss p (some i) = .error .invalidIssuer := by
  unfold checkIss
  rw [h]
  simp [hne]

theorem checkAud_ok_of_mem (p : TokenPayload) (a : String)
    (h : p.aud.contains a = true) : checkAud p (some a) = .ok () := by
  have hne : ¬ p.aud = [] := by
    intro hnil
    rw [hnil] at h
    cases h
  unfold checkAud
  simp [hne, h]
  simpa using h

theorem checkAud_error_of (p : TokenPayload) (a : String)
    (hne : p.aud ≠ []) (h : p.aud.contains a = false) :
    checkAud p (some a) = .error .invalidAudience := by
  unfold checkAud
  simp [hne, h]
  simpa using h

/-- An early failure of the nbf check short-circuits claim validation. -/
theorem validateClaims_nbf_error (p : TokenPayload) (aud iss : Option String)
    (now : Int) (e : JwtError) (h1 : checkNbf p now = .error e) :
    validateClaims p aud iss now = .error e := by
  unfold validateClaims
  rw [h1]

/-- A failure of the exp check (nbf having passed) short-circuits. -/
theorem validateClaims_exp_error (p : TokenPayload) (aud iss : Option String)
    (now : Int) (e : JwtError)
    (h1 : checkNbf p now = .ok ()) (h2 : checkExp p now = .error e) :
    validateClaims p aud iss now = .error e := by
  unfold validateClaims
  rw [h1, h2]

/-- A failure of the iss check (nbf, exp having passed) short-circuits. -/
theorem validateClaims_iss_error (p : TokenPayload) (aud iss : Option String)
    (now : Int) (e : JwtError)
    (h1 : checkNbf p now = .ok ()) (h2 : checkExp p now = .ok ())
    (h3 : checkIss p iss = .error e) :
    validateClaims p aud iss now = .error e := by
  unfold validateClaims
  rw [h1, h2, h3]

/-- A failure of the aud check (all earlier checks passed) short-circuits. -/
theorem validateClaims_aud_error (p : TokenPayload) (aud iss : Option String)
    (now : Int) (e : JwtError)
    (h1 : checkNbf p now = .ok ()) (h2 : checkExp p now = .ok ())
    (h3 : checkIss p iss = .ok ()) (h4 : checkAud p aud = .error e) :
    validateClaims p aud iss now = .error e := by
  unfold validateClaims
  rw [h1, h2, h3, h4]

/-- With an RS256 header and a valid signature, jwt.decode surfaces exactly
the claim-validation error. -/
theorem jwtDecode_claims_error (h : TokenHeader) (p : TokenPayload)
    (sig key : Nat) (aud iss : Option String) (now : Int) (e : JwtError)
    (halg : h.alg = "RS256") (hsig : rs256Verify key h p sig = true)
    (hv : validateClaims p aud iss now = .error e) :
    jwtDecode (.wellFormed h p sig) key ["RS256"] aud iss now = .error e := by
  rw [jwtDecode_rs256_reduce h p sig key aud iss now halg, if_pos hsig, hv]

/-- Once the header shape and scheme checks pass, the kid is found and the
key located, Part2.require_auth is the error-mapped jwt.decode call with
the fixed allow-list [RS256], audience account and no issuer. -/
theorem part2_require_auth_decode (parse : String → RawToken) (provider : Jwks)
    (now : Int) (scheme tokenStr : String) (st : KeyCacheState)
    (h : TokenHeader) (p : TokenPayload) (sig : Nat) (kid : String) (k : Jwk)
    (hsch : lowerStr scheme = "bearer")
    (hp : parse tokenStr = .wellFormed h p sig)
    (hkid : h.kid = some kid)
    (hfind : Part2.findKey (get_public_keys provider st).1 kid = some k) :
    Part2.require_auth parse provider now (some [scheme, tokenStr]) st =
      ((match jwtDecode (.wellFormed h p sig) k.key ["RS256"] (some "account") none now with
        | .ok u => .ok u
        | .error .expiredSignature => .denied "Token has expired" 401
        | .error e => .denied ("Invalid token: " ++ jwtErrorMsg e) 401),
       (get_public_keys provider st).2) := by
  simp only [Part2.require_auth]
  rw [if_neg (by simp [hsch])]
  simp only [hp, hkid, hfind]
  cases hd : jwtDecode (.wellFormed h p sig) k.key ["RS256"] (some "account") none now with
  | ok q => rfl
  | error e => cases e <;> rfl

/-- Once the key for the token kid is located, ExampleApp.verify_token is
the error-mapped jwt.decode call with audience account and the configured
issuer. -/
theorem exampleApp_verify_token_decode (provider : Jwks) (now : Int)
    (st : KeyCacheState) (h : TokenHeader) (p : TokenPayload) (sig : Nat)
    (k : Jwk)
    (hfindk : (get_public_keys provider st).1.keys.find?
      (fun kk => some kk.kid == h.kid) = some k) :
    ExampleApp.verify_token (.wellFormed h p sig) provider now st =
      ((match jwtDecode (.wellFormed h p sig) k.key ["RS256"] (some "account")
          (some ExampleApp.KEYCLOAK_ISSUER) now with
        | .ok u => .ok u
        | .error .expiredSignature => .error "Token has expired"
        | .error e => .error ("Invalid token: " ++ jwtErrorMsg e)),
       (get_public_keys provider st).2) := by
  simp only [ExampleApp.verify_token, hfindk]
  cases hd : jwtDecode (.wellFormed h p sig) k.key ["RS256"] (some "account")
      (some ExampleApp.KEYCLOAK_ISSUER) now with
  | ok q => rfl
  | error e => cases e <;> rfl

/-- Once the kid is present and its key located, TodoApp.verify_token is
the error-mapped jwt.decode call with audience account and the configured
issuer. -/
theorem todoApp_verify_token_decode (provider : Jwks) (now : Int)
    (st : KeyCacheState) (h : TokenHeader) (p : TokenPayload) (sig : Nat)
    (kid : String) (k : Jwk)
    (hkid : h.kid = some kid)
    (hfind : TodoApp.findKey (get_public_keys provider st).1 kid = some k) :
    TodoApp.verify_token (.wellFormed h p sig) provider now st =
      ((match jwtDecode (.wellFormed h p sig) k.key ["RS256"] (some "account")
          (some TodoApp.KEYCLOAK_ISSUER) now with
        | .ok u => .ok u
        | .error .expiredSignature => .error "Token has expired"
        | .error e => .error ("Invalid token: " ++ jwtErrorMsg e)),
       (get_public_keys provider st).2) := by
  simp only [TodoApp.verify_token, hkid, hfind]
  cases hd : jwtDecode (.wellFormed h p sig) k.key ["RS256"] (some "account")
      (some TodoApp.KEYCLOAK_ISSUER) now with
  | ok q => rfl
  | error e => cases e <;> rfl

/-- C4: signature verification runs against the fixed allow-list [RS256]
as passed by every verifying backend; a header declaring any other
algorithm (HS256, none, ...) is rejected with InvalidAlgorithmError, and a
successful decode implies the header declared RS256 and the RS256 check
accepted the signature — the untrusted header never selects a different
verification algorithm. -/
theorem c4_algorithm_allowlist (h : TokenHeader) (p : TokenPayload)
    (sig key : Nat) (aud iss : Option String) (now : Int) :
    (h.alg ≠ "RS256" →
      jwtDecode (.wellFormed h p sig) key ["RS256"] aud iss now =
        .error .invalidAlgorithm) ∧
    (∀ u, jwtDecode (.wellFormed h p sig) key ["RS256"] aud iss now = .ok u →
      h.alg = "RS256" ∧ rs256Verify key h p sig = true) := by
  constructor
  · intro halg
    exact jwtDecode_rejects_other_alg h p sig key aud iss now halg
  · intro u hok
    have hi := jwtDecode_ok_inv h p sig key aud iss now u hok
    exact ⟨hi.1, hi.2.1⟩

/-- Witness for C4 at a concrete HS256-declaring token. -/
theorem c4_algorithm_allowlist_wit :
    jwtDecode (.wellFormed Fix.hdrHS Fix.goodPayload 123) Fix.k1.key ["RS256"]
      (some "account") none 1000 = .error .invalidAlgorithm :=
  (c4_algorithm_allowlist Fix.hdrHS Fix.goodPayload 123 Fix.k1.key
    (some "account") none 1000).1 (by decide)

/-- C9: the owner-or-admin policy on toggle_todo: the owner is allowed even
without the admin role, an admin is allowed even when not the owner, and
the request is denied 403 exactly when both conditions fail. -/
theorem c9_owner_or_admin (user : TokenPayload) (todo_id : Nat)
    (todos : List Todo) (todo : Todo)
    (hfind : todos.find? (fun t => t.id == todo_id) = some todo) :
    (todo.user_id = user.sub →
      Part3.toggle_todo user todo_id todos =
        (.todoJson { todo with completed := !todo.completed },
         Part3.toggleFirst todo_id todos)) ∧
    (Part3.is_admin user = true →
      Part3.toggle_todo user todo_id todos =
        (.todoJson { todo with completed := !todo.completed },
         Part3.toggleFirst todo_id todos)) ∧
    (todo.user_id ≠ user.sub → Part3.is_admin user = false →
      Part3.toggle_todo user todo_id todos =
        (.err "Forbidden: You can only toggle your own todos" 403, todos)) := by
  refine ⟨?_, ?_, ?_⟩
  · intro hown
    simp [Part3.toggle_todo, hfind, hown]
  · intro hadm
    simp [Part3.toggle_todo, hfind, hadm]
  · intro hown hadm
    simp [Part3.toggle_todo, hfind, hadm, hown]

/-- Witness for C9: a non-owner without the admin role is denied 403. -/
theorem c9_owner_or_admin_wit :
    Part3.toggle_todo Fix.malloryUser 1 [Fix.todoA, Fix.todoB] =
      (.err "Forbidden: You can only toggle your own todos" 403,
       [Fix.todoA, Fix.todoB]) :=
  (c9_owner_or_admin Fix.malloryUser 1 [Fix.todoA, Fix.todoB] Fix.todoA
    (by decide)).2.2 (by decide) (by decide)

/-- C10: when the authentication decorator denies a request, the protected
handler is not invoked: the decorated endpoint returns exactly the auth
denial and the in-memory application state (todos, todo_id_counter) is
unchanged. -/
theorem c10_denied_request_preserves_state (parse : String → RawToken)
    (provider : Jwks) (now : Int) (auth_header : Option (List String))
    (kst kst' : KeyCacheState) (e : String) (c : Nat)
    (body : Option (Option String)) (created_at : String) (todo_id : Nat)
    (st : AppState)
    (hden : Part2.require_auth parse provider now auth_header kst =
      (.denied e c, kst')) :
    Part2.handle_create_todo parse provider now auth_header body created_at
      kst st = (.err e c, kst', st) ∧
    Part2.handle_delete_todo parse provider now auth_header todo_id kst st =
      (.err e c, kst', st) := by
  constructor
  · simp only [Part2.handle_create_todo, hden]
  · simp only [Part2.handle_delete_todo, hden]

/-- Witness for C10 at a request with no Authorization header. -/
theorem c10_denied_request_preserves_state_wit :
    Part2.handle_create_todo Fix.parseGood (Jwks.mk [Fix.k1]) 1000 none
      (some (some " milk ")) "t2" ⟨none⟩ ⟨[Fix.todoA], 2⟩ =
      (.err "No authorization header" 401, ⟨none⟩, ⟨[Fix.todoA], 2⟩) ∧
    Part2.handle_delete_todo Fix.parseGood (Jwks.mk [Fix.k1]) 1000 none 1
      ⟨none⟩ ⟨[Fix.todoA], 2⟩ =
      (.err "No authorization header" 401, ⟨none⟩, ⟨[Fix.todoA], 2⟩) :=
  c10_denied_request_preserves_state Fix.parseGood (Jwks.mk [Fix.k1]) 1000
    none ⟨none⟩ ⟨none⟩ "No authorization header" 401 (some (some " milk "))
    "t2" 1 ⟨[Fix.todoA], 2⟩ rfl

/-- C8: require_role allows exactly when the role is in the realm-level
role list or in the client role list scoped to this service's CLIENT_ID,
and otherwise denies 403 naming the role. -/
theorem c8_require_role_realm_or_client (role : String)
    (parse : String → RawToken) (provider : Jwks) (now : Int)
    (auth_header : Option String) (st kst : KeyCacheState) (u : TokenPayload)
    (hauth : ExampleApp.require_auth parse provider now auth_header st =
      (.ok u, kst)) :
    (ExampleApp.require_role role parse provider now auth_header st =
        (.ok u, kst) ↔
      (u.realm_roles.contains role = true ∨
        ((u.resource_access.lookup ExampleApp.CLIENT_ID).getD []).contains
          role = true)) ∧
    (u.realm_roles.contains role = false →
      ((u.resource_access.lookup ExampleApp.CLIENT_ID).getD []).contains
        role = false →
      ExampleApp.require_role role parse provider now auth_header st =
        (.denied ("Role " ++ role ++ " required") 403, kst)) := by
  simp only [ExampleApp.require_role, hauth]
  unfold ExampleApp.roleAllowed
  constructor
  · by_cases hr : (u.realm_roles.contains role ||
        ((u.resource_access.lookup ExampleApp.CLIENT_ID).getD []).contains
          role) = true
    · rw [if_pos hr]
      exact iff_of_true rfl (Eq.mp (Bool.or_eq_true _ _) hr)
    · rw [if_neg hr]
      refine iff_of_false (fun hcon => ?_)
        (fun hor => hr (Eq.mpr (Bool.or_eq_true _ _) hor))
      simp at hcon
  · intro h1 h2
    rw [if_neg (fun hb => by
      simp at h1 h2 hb
      exact Or.elim hb h1 h2)]

set_option maxRecDepth 10000 in
/-- Witness for C8: realm roles [user], no client roles, required role
admin yields the 403 denial. -/
theorem c8_require_role_realm_or_client_wit :
    ExampleApp.require_role "admin" Fix.parseGood (Jwks.mk [Fix.k1]) 1000
      (some "Bearer tok") ⟨none⟩ =
      (.denied ("Role " ++ "admin" ++ " required") 403,
       ⟨some (Jwks.mk [Fix.k1])⟩) :=
  (c8_require_role_realm_or_client "admin" Fix.parseGood (Jwks.mk [Fix.k1])
    1000 (some "Bearer tok") ⟨none⟩ ⟨some (Jwks.mk [Fix.k1])⟩ Fix.goodPayload
    (by decide)).2 (by decide) (by decide)

/-- C2: a token validly signed by the key located for its kid in the
current key set, unexpired, past its nbf, with matching issuer and
audience, verifies successfully and the returned claim set carries the
token's sub claim. -/
theorem c2_valid_token_verifies (h : TokenHeader) (p : TokenPayload)
    (sig : Nat) (k : Jwk) (provider : Jwks) (now : Int) (st : KeyCacheState)
    (kid : String)
    (halg : h.alg = "RS256") (hkid : h.kid = some kid)
    (hfind : TodoApp.findKey (get_public_keys provider st).1 kid = some k)
    (hsig : rs256Verify k.key h p sig = true)
    (hnbf : ∀ n, p.nbf = some n → n ≤ now)
    (hexp : ∀ e, p.exp = some e → now < e)
    (hiss : p.iss = some TodoApp.KEYCLOAK_ISSUER)
    (haud : p.aud.contains "account" = true) :
    ∃ q, (TodoApp.verify_token (.wellFormed h p sig) provider now st).1 =
      .ok q ∧ q.sub = p.sub := by
  refine ⟨p, ?_, rfl⟩
  rw [todoApp_verify_token_decode provider now st h p sig kid k hkid hfind,
    jwtDecode_ok_of_checks h p sig k.key (some "account")
      (some TodoApp.KEYCLOAK_ISSUER) now halg hsig
      (checkNbf_ok_of p now hnbf) (checkExp_ok_of p now hexp)
      (checkIss_ok_of_eq p TodoApp.KEYCLOAK_ISSUER hiss)
      (checkAud_ok_of_mem p "account" haud)]

set_option maxRecDepth 10000 in
/-- Witness for C2 at a concrete validly signed, timely token. -/
theorem c2_valid_token_verifies_wit :
    ∃ q, (TodoApp.verify_token
        (.wellFormed Fix.hdrK1 Fix.goodPayload Fix.goodSig)
        (Jwks.mk [Fix.k1]) 1000 ⟨none⟩).1 = .ok q ∧
      q.sub = Fix.goodPayload.sub :=
  c2_valid_token_verifies Fix.hdrK1 Fix.goodPayload Fix.goodSig Fix.k1
    (Jwks.mk [Fix.k1]) 1000 ⟨none⟩ "k1" (by decide) (by decide) (by decide)
    (by decide)
    (fun n hn => by simp [Fix.goodPayload] at hn; omega)
    (fun e he => by simp [Fix.goodPayload] at he; omega)
    (by decide) (by decide)

/-- C6: after signature success, each failing standard-claim check
short-circuits to its own reported failure — not-yet-valid (nbf), expired,
issuer mismatch, audience mismatch — and the four reported messages are
pairwise distinct, so the kinds are never merged into one bucket. -/
theorem c6_distinct_claim_failures (h : TokenHeader) (p : TokenPayload)
    (sig : Nat) (k : Jwk) (provider : Jwks) (now : Int) (st : KeyCacheState)
    (halg : h.alg = "RS256")
    (hfindk : (get_public_keys provider st).1.keys.find?
      (fun kk => some kk.kid == h.kid) = some k)
    (hsig : rs256Verify k.key h p sig = true) :
    (∀ n, p.nbf = some n → now < n →
      (ExampleApp.verify_token (.wellFormed h p sig) provider now st).1 =
        .error ("Invalid token: " ++ "The token is not yet valid (nbf)")) ∧
    (checkNbf p now = .ok () → ∀ e, p.exp = some e → e ≤ now →
      (ExampleApp.verify_token (.wellFormed h p sig) provider now st).1 =
        .error "Token has expired") ∧
    (checkNbf p now = .ok () → checkExp p now = .ok () →
      ∀ j, p.iss = some j → j ≠ ExampleApp.KEYCLOAK_ISSUER →
      (ExampleApp.verify_token (.wellFormed h p sig) provider now st).1 =
        .error ("Invalid token: " ++ "Invalid issuer")) ∧
    (checkNbf p now = .ok () → checkExp p now = .ok () →
      checkIss p (some ExampleApp.KEYCLOAK_ISSUER) = .ok () →
      p.aud ≠ [] → p.aud.contains "account" = false →
      (ExampleApp.verify_token (.wellFormed h p sig) provider now st).1 =
        .error ("Invalid token: " ++ "Audience doesn\x27t match")) ∧
    List.Pairwise (fun a b => a ≠ b)
      ["Invalid token: The token is not yet valid (nbf)", "Token has expired",
       "Invalid token: Invalid issuer",
       "Invalid token: Audience doesn\x27t match"] := by
  have hred := exampleApp_verify_token_decode provider now st h p sig k hfindk
  refine ⟨?_, ?_, ?_, ?_, by decide⟩
  · intro n hn hlt
    rw [hred, jwtDecode_claims_error h p sig k.key (some "account")
      (some ExampleApp.KEYCLOAK_ISSUER) now _ halg hsig
      (validateClaims_nbf_error p (some "account")
        (some ExampleApp.KEYCLOAK_ISSUER) now _
        (checkNbf_error_of p now n hn hlt))]
    rfl
  · intro hok1 e he hle
    rw [hred, jwtDecode_claims_error h p sig k.key (some "account")
      (some ExampleApp.KEYCLOAK_ISSUER) now _ halg hsig
      (validateClaims_exp_error p (some "account")
        (some ExampleApp.KEYCLOAK_ISSUER) now _ hok1
        (checkExp_error_of p now e he hle))]
  · intro hok1 hok2 j hj hne
    rw [hred, jwtDecode_claims_error h p sig k.key (some "account")
      (some ExampleApp.KEYCLOAK_ISSUER) now _ halg hsig
      (validateClaims_iss_error p (some "account")
        (some ExampleApp.KEYCLOAK_ISSUER) now _ hok1 hok2
        (checkIss_error_of p ExampleApp.KEYCLOAK_ISSUER j hj hne))]
    rfl
  · intro hok1 hok2 hok3 hne hcon
    rw [hred, jwtDecode_claims_error h p sig k.key (some "account")
      (some ExampleApp.KEYCLOAK_ISSUER) now _ halg hsig
      (validateClaims_aud_error p (some "account")
        (some ExampleApp.KEYCLOAK_ISSUER) now _ hok1 hok2 hok3
        (checkAud_error_of p "account" hne hcon))]
    rfl

set_option maxRecDepth 10000 in
/-- Witness for C6 at a concrete validly signed token whose nbf is in the
future. -/
theorem c6_distinct_claim_failures_wit :
    (ExampleApp.verify_token
      (.wellFormed Fix.hdrK1 Fix.expiredImmaturePayload Fix.expiredImmatureSig)
      (Jwks.mk [Fix.k1]) 1000 ⟨none⟩).1 =
      .error ("Invalid token: " ++ "The token is not yet valid (nbf)") :=
  (c6_distinct_claim_failures Fix.hdrK1 Fix.expiredImmaturePayload
    Fix.expiredImmatureSig Fix.k1 (Jwks.mk [Fix.k1]) 1000 ⟨none⟩
    (by decide) (by decide) (by decide)).1 5000 (by decide) (by decide)

set_option maxRecDepth 10000 in
/-- C1 counterexample: the part-1 basic backend populates request.user from
an unverified decode — a token whose signature (999) no configured key
accepts is accepted and its payload becomes request.user. -/
theorem c1_part1_unverified_claimset_cex :
    Part1.require_auth Fix.parseForged (some ["Bearer", "tok"]) =
      .ok Fix.goodPayload ∧
    rs256Verify Fix.k1.key Fix.hdrK1 Fix.goodPayload 999 = false ∧
    rs256Verify Fix.k2.key Fix.hdrK1 Fix.goodPayload 999 = false := by
  decide

/-- C1 amended: in the signature-verifying backends (part-2 secure backend
and todo-app-example), a populated request.user implies the token signature
was verified against a key whose kid equals the kid in the token header;
the part-1 basic backend instead populates it from an unverified decode
(see the counterexample). -/
theorem c1_verified_backends_require_signature :
    (∀ (parse : String → RawToken) (provider : Jwks) (now : Int)
      (ah : Option (List String)) (st kst : KeyCacheState) (u : TokenPayload),
      Part2.require_auth parse provider now ah st = (.ok u, kst) →
      ∃ scheme tokenStr h p sig kid k,
        ah = some [scheme, tokenStr] ∧
        parse tokenStr = .wellFormed h p sig ∧
        h.kid = some kid ∧
        Part2.findKey (get_public_keys provider st).1 kid = some k ∧
        rs256Verify k.key h p sig = true ∧ u = p) ∧
    (∀ (tok : RawToken) (provider : Jwks) (now : Int) (st : KeyCacheState)
      (u : TokenPayload),
      (TodoApp.verify_token tok provider now st).1 = .ok u →
      ∃ h p sig kid k,
        tok = .wellFormed h p sig ∧ h.kid = some kid ∧
        TodoApp.findKey (get_public_keys provider st).1 kid = some k ∧
        rs256Verify k.key h p sig = true ∧ u = p) := by
  constructor
  · intro parse provider now ah st kst u hok
    cases ah with
    | none => simp [Part2.require_auth] at hok
    | some parts =>
      cases parts with
      | nil => simp [Part2.require_auth] at hok
      | cons a rest =>
        cases rest with
        | nil => simp [Part2.require_auth] at hok
        | cons b rest2 =>
          cases rest2 with
          | cons c rest3 => simp [Part2.require_auth] at hok
          | nil =>
            simp only [Part2.require_auth] at hok
            by_cases hsch : lowerStr a = "bearer"
            · rw [if_neg (by simp [hsch])] at hok
              cases hp : parse b with
              | malformed m => simp only [hp] at hok; simp at hok
              | wellFormed h p sig =>
                cases hk : h.kid with
                | none => simp only [hp, hk] at hok; simp at hok
                | some kid =>
                  cases hf : Part2.findKey (get_public_keys provider st).1 kid with
                  | none => simp only [hp, hk, hf] at hok; simp at hok
                  | some k =>
                    simp only [hp, hk, hf] at hok
                    cases hd : jwtDecode (.wellFormed h p sig) k.key ["RS256"]
                        (some "account") none now with
                    | error e => cases e <;> simp only [hd] at hok <;> simp at hok
                    | ok q =>
                      simp only [hd] at hok
                      have hqu : q = u := by
                        have := congrArg Prod.fst hok
                        simpa using this
                      have hi := jwtDecode_ok_inv h p sig k.key (some "account")
                        none now q hd
                      exact ⟨a, b, h, p, sig, kid, k, rfl, hp, hk, hf, hi.2.1,
                        by rw [← hqu]; exact hi.2.2.2.2.2.2⟩
            · rw [if_pos hsch] at hok
              simp at hok
  · intro tok provider now st u hok
    cases tok with
    | malformed m => simp [TodoApp.verify_token] at hok
    | wellFormed h p sig =>
      cases hk : h.kid with
      | none => simp [TodoApp.verify_token, hk] at hok
      | some kid =>
        cases hf : TodoApp.findKey (get_public_keys provider st).1 kid with
        | none => simp [TodoApp.verify_token, hk, hf] at hok
        | some k =>
          rw [todoApp_verify_token_decode provider now st h p sig kid k hk hf]
            at hok
          cases hd : jwtDecode (.wellFormed h p sig) k.key ["RS256"]
              (some "account") (some TodoApp.KEYCLOAK_ISSUER) now with
          | error e => cases e <;> simp only [hd] at hok <;> simp at hok
          | ok q =>
            simp only [hd] at hok
            have hqu : q = u := by simpa using hok
            have hi := jwtDecode_ok_inv h p sig k.key (some "account")
              (some TodoApp.KEYCLOAK_ISSUER) now q hd
            exact ⟨h, p, sig, kid, k, rfl, hk, hf, hi.2.1,
              by rw [← hqu]; exact hi.2.2.2.2.2.2⟩

set_option maxRecDepth 10000 in
/-- Witness for the amended C1 at a concrete successful authentication. -/
theorem c1_verified_backends_require_signature_wit :
    ∃ scheme tokenStr h p sig kid k,
      (some ["Bearer", "tok"] : Option (List String)) = some [scheme, tokenStr] ∧
      Fix.parseGood tokenStr = .wellFormed h p sig ∧
      h.kid = some kid ∧
      Part2.findKey (get_public_keys (Jwks.mk [Fix.k1]) ⟨none⟩).1 kid = some k ∧
      rs256Verify k.key h p sig = true ∧ Fix.goodPayload = p :=
  c1_verified_backends_require_signature.1 Fix.parseGood (Jwks.mk [Fix.k1])
    1000 (some ["Bearer", "tok"]) ⟨none⟩ ⟨some (Jwks.mk [Fix.k1])⟩
    Fix.goodPayload (by decide)

set_option maxRecDepth 10000 in
/-- C3 counterexample: a validly signed token with exp in the past AND nbf
in the future is reported as not-yet-valid, not as expired: the nbf check
runs before the exp check. -/
theorem c3_expired_reported_not_yet_valid_cex :
    Fix.expiredImmaturePayload.exp = some 100 ∧ ((100 : Int) ≤ 1000) ∧
    rs256Verify Fix.k1.key Fix.hdrK1 Fix.expiredImmaturePayload
      Fix.expiredImmatureSig = true ∧
    Part2.require_auth Fix.parseExpiredImmature (Jwks.mk [Fix.k1]) 1000
      (some ["Bearer", "tok"]) ⟨none⟩ =
      (.denied ("Invalid token: " ++ "The token is not yet valid (nbf)") 401,
       ⟨some (Jwks.mk [Fix.k1])⟩) ∧
    ("Invalid token: The token is not yet valid (nbf)" ≠ "Token has expired") := by
  decide

/-- C3 amended: for a well-formed, validly signed token: if nbf is in the
future the not-yet-valid denial is reported (taking precedence over expiry,
since the nbf check runs first); if nbf passes and exp is past, the expired
denial is reported; and a token outside its validity window never populates
request.user. -/
theorem c3_validity_window (parse : String → RawToken) (provider : Jwks)
    (now : Int) (scheme tokenStr : String) (st : KeyCacheState)
    (h : TokenHeader) (p : TokenPayload) (sig : Nat) (kid : String) (k : Jwk)
    (hsch : lowerStr scheme = "bearer")
    (hp : parse tokenStr = .wellFormed h p sig)
    (hkid : h.kid = some kid)
    (hfind : Part2.findKey (get_public_keys provider st).1 kid = some k)
    (halg : h.alg = "RS256")
    (hsig : rs256Verify k.key h p sig = true) :
    (checkNbf p now = .ok () → ∀ e, p.exp = some e → e ≤ now →
      Part2.require_auth parse provider now (some [scheme, tokenStr]) st =
        (.denied "Token has expired" 401, (get_public_keys provider st).2)) ∧
    (∀ n, p.nbf = some n → now < n →
      Part2.require_auth parse provider now (some [scheme, tokenStr]) st =
        (.denied ("Invalid token: " ++ "The token is not yet valid (nbf)") 401,
         (get_public_keys provider st).2)) ∧
    (∀ u kst,
      Part2.require_auth parse provider now (some [scheme, tokenStr]) st =
        (.ok u, kst) →
      (∀ e, p.exp = some e → now < e) ∧ (∀ n, p.nbf = some n → n ≤ now)) := by
  have hred := part2_require_auth_decode parse provider now scheme tokenStr st
    h p sig kid k hsch hp hkid hfind
  refine ⟨?_, ?_, ?_⟩
  · intro hok1 e he hle
    rw [hred, jwtDecode_claims_error h p sig k.key (some "account") none now _
      halg hsig (validateClaims_exp_error p (some "account") none now _ hok1
        (checkExp_error_of p now e he hle))]
  · intro n hn hlt
    rw [hred, jwtDecode_claims_error h p sig k.key (some "account") none now _
      halg hsig (validateClaims_nbf_error p (some "account") none now _
        (checkNbf_error_of p now n hn hlt))]
    rfl
  · intro u kst hok
    rw [hred] at hok
    cases hd : jwtDecode (.wellFormed h p sig) k.key ["RS256"] (some "account")
        none now with
    | error e => cases e <;> simp only [hd] at hok <;> simp at hok
    | ok q =>
      have hi := jwtDecode_ok_inv h p sig k.key (some "account") none now q hd
      exact ⟨checkExp_ok_inv p now hi.2.2.2.1, checkNbf_ok_inv p now hi.2.2.1⟩

set_option maxRecDepth 10000 in
/-- Witness for the amended C3 at a concrete expired (nbf-passing) token. -/
theorem c3_validity_window_wit :
    Part2.require_auth Fix.parseExpired (Jwks.mk [Fix.k1]) 1000
      (some ["Bearer", "tok"]) ⟨none⟩ =
      (.denied "Token has expired" 401, ⟨some (Jwks.mk [Fix.k1])⟩) :=
  (c3_validity_window Fix.parseExpired (Jwks.mk [Fix.k1]) 1000 "Bearer" "tok"
    ⟨none⟩ Fix.hdrK1 Fix.expiredPayload Fix.expiredSig "k1" Fix.k1
    (by decide) (by decide) (by decide) (by decide) (by decide) (by decide)).1
    rfl 100 rfl (by decide)

set_option maxRecDepth 10000 in
/-- C5 counterexample: the cached key set lacks the token kid (k1) while
the provider now serves k1 (post-rotation) and the token verifies under it;
the code denies with the key-not-found error WITHOUT any forced
refresh-and-retry — the returned cache still lacks k1. -/
theorem c5_no_refresh_on_unknown_kid_cex :
    Part2.require_auth Fix.parseGood (Jwks.mk [Fix.k1, Fix.k2]) 1000
      (some ["Bearer", "tok"]) ⟨some (Jwks.mk [Fix.k2])⟩ =
      (.denied "Public key not found" 401, ⟨some (Jwks.mk [Fix.k2])⟩) ∧
    (Jwks.mk [Fix.k1, Fix.k2]).keys.contains Fix.k1 = true ∧
    rs256Verify Fix.k1.key Fix.hdrK1 Fix.goodPayload Fix.goodSig = true := by
  decide

/-- C5 amended: when the token kid is absent from the cached key set, the
request is denied immediately with the key-not-found error; no key-set
refresh is performed — the cache state is returned unchanged, so a key the
provider rotated in is never picked up within the request. -/
theorem c5_unknown_kid_terminal_without_refresh (parse : String → RawToken)
    (provider : Jwks) (now : Int) (scheme tokenStr : String)
    (st : KeyCacheState) (ks : Jwks) (h : TokenHeader) (p : TokenPayload)
    (sig : Nat) (kid : String)
    (hsch : lowerStr scheme = "bearer")
    (hcache : st.public_keys = some ks)
    (hp : parse tokenStr = .wellFormed h p sig)
    (hkid : h.kid = some kid)
    (hmiss : Part2.findKey ks kid = none) :
    Part2.require_auth parse provider now (some [scheme, tokenStr]) st =
      (.denied "Public key not found" 401, st) := by
  have hg : get_public_keys provider st = (ks, st) := by
    unfold get_public_keys
    rw [hcache]
  simp only [Part2.require_auth]
  rw [if_neg (by simp [hsch])]
  simp only [hp, hg, hkid, hmiss]

set_option maxRecDepth 10000 in
/-- Witness for the amended C5 at the concrete post-rotation scenario. -/
theorem c5_unknown_kid_terminal_without_refresh_wit :
    Part2.require_auth Fix.parseGood (Jwks.mk [Fix.k1, Fix.k2]) 1000
      (some ["Bearer", "tok"]) ⟨some (Jwks.mk [Fix.k2])⟩ =
      (.denied "Public key not found" 401, ⟨some (Jwks.mk [Fix.k2])⟩) :=
  c5_unknown_kid_terminal_without_refresh Fix.parseGood
    (Jwks.mk [Fix.k1, Fix.k2]) 1000 "Bearer" "tok"
    ⟨some (Jwks.mk [Fix.k2])⟩ (Jwks.mk [Fix.k2]) Fix.hdrK1 Fix.goodPayload
    Fix.goodSig "k1" (by decide) rfl (by decide) (by decide) (by decide)

set_option maxRecDepth 10000 in
/-- C7 counterexample: in the example-app backend an Authorization header
with the Basic scheme is NOT rejected as an input-validation failure:
verify_token is invoked, the key fetch happens (the cold cache becomes
populated), and the failure reported is the malformed-token kind. -/
theorem c7_basic_scheme_reaches_verifier_cex :
    ExampleApp.require_auth Fix.parseMal (Jwks.mk [Fix.k1]) 1000
      (some "Basic abc123") ⟨none⟩ =
      (.denied ("Invalid token: " ++ "Not enough segments") 401,
       ⟨some (Jwks.mk [Fix.k1])⟩) ∧
    (KeyCacheState.mk none ≠ KeyCacheState.mk (some (Jwks.mk [Fix.k1]))) := by
  decide

/-- C7 amended: the part-2 backend rejects a missing header, a non-Bearer
scheme and a wrong segment count before any key fetch or token decode — the
key cache state is returned untouched even when cold; the example-app
backend only rejects a missing header early (see the counterexample). -/
theorem c7_early_input_validation (parse : String → RawToken)
    (provider : Jwks) (now : Int) (st : KeyCacheState) :
    Part2.require_auth parse provider now none st =
      (.denied "No authorization header" 401, st) ∧
    (∀ scheme tok, lowerStr scheme ≠ "bearer" →
      Part2.require_auth parse provider now (some [scheme, tok]) st =
        (.denied "Invalid authorization header" 401, st)) ∧
    (∀ parts, parts.length ≠ 2 →
      Part2.require_auth parse provider now (some parts) st =
        (.denied "Invalid authorization header" 401, st)) := by
  refine ⟨rfl, ?_, ?_⟩
  · intro scheme tok hsch
    simp only [Part2.require_auth]
    rw [if_pos hsch]
  · intro parts hlen
    cases parts with
    | nil => rfl
    | cons a rest =>
      cases rest with
      | nil => rfl
      | cons b rest2 =>
        cases rest2 with
        | nil => exact absurd rfl hlen
        | cons c rest3 => rfl

/-- Witness for the amended C7: the Basic-scheme request is rejected by the
input validation with an untouched cold cache. -/
theorem c7_early_input_validation_wit :
    Part2.require_auth Fix.parseMal (Jwks.mk [Fix.k1]) 1000
      (some ["Basic", "abc123"]) ⟨none⟩ =
      (.denied "Invalid authorization header" 401, ⟨none⟩) :=
  (c7_early_input_validation Fix.parseMal (Jwks.mk [Fix.k1]) 1000 ⟨none⟩).2.1
    "Basic" "abc123" (by decide)
